import Mathlib

/-
Verification of the RAG orchestration flow of the cortex-handson-jp
repository: filter compilation, response post-processing, context
assembly, turn pipelines and conversation history, embedded from
  src/handson2/sis_snowretail_chatbot_mvp.py
  src/handson2/sis_snowretail_analysis_short.py
  src/handson/mvp/pages/_4_RAGチャットボット.py
External services (Cortex Search, COMPLETE) are modelled by passing
their outcomes as explicit `Except` values.
-/

/-- A retrieved document record with the four projected columns
(title, content, document_type, department) requested by every search. -/
structure Passage where
  title : String
  content : String
  document_type : String
  department : String
deriving DecidableEq, Repr

namespace ChatbotMvp

/- Embeds src/handson2/sis_snowretail_chatbot_mvp.py, render_rag_chatbot_page
(lines 687-815). -/

/-- The Cortex Search filter-expression grammar used by the page. -/
inductive FilterExpr where
  | eq (attr value : String)
  | or (cs : List FilterExpr)
  | and (cs : List FilterExpr)

/-- One attribute block (lines 706-725): each selected value becomes an
@eq condition; a single condition is kept bare, several are wrapped in @or;
an empty selection contributes nothing. -/
def attrCondition (attr : String) (values : List String) : Option FilterExpr :=
  match values.map (fun v => FilterExpr.eq attr v) with
  | [] => none
  | [c] => some c
  | cs => some (FilterExpr.or cs)

/-- The filter_conditions list: department block first, then document_type
block (lines 703-725). -/
def filterConditions (selected_departments selected_document_types : List String) :
    List FilterExpr :=
  (attrCondition "department" selected_departments).toList
    ++ (attrCondition "document_type" selected_document_types).toList

/-- Final assembly (lines 727-733): no conditions means no filter at all,
one condition is kept bare, several are wrapped in @and. -/
def searchFilter (selected_departments selected_document_types : List String) :
    Option FilterExpr :=
  match filterConditions selected_departments selected_document_types with
  | [] => none
  | [c] => some c
  | cs => some (FilterExpr.and cs)

/-- The search request; `filter = none` models the absence of the
"filter" key in search_args. -/
structure SearchRequest where
  query : String
  columns : List String
  limit : Nat
  filter : Option FilterExpr

/-- search_args construction (lines 745-753). -/
def buildSearchArgs (prompt : String)
    (selected_departments selected_document_types : List String) : SearchRequest :=
  { query := prompt
  , columns := ["title", "content", "document_type", "department"]
  , limit := 3
  , filter := searchFilter selected_departments selected_document_types }

/-- One chat-history entry of st.session_state.rag_messages; assistant
messages carry the relevant_docs key, user messages do not. -/
structure Message where
  role : String
  content : String
  relevant_docs : Option (List Passage)
deriving DecidableEq, Repr

/-- The per-document chunk appended to the context string (lines 770-777),
with the literal indentation of the f-string. -/
def mvpDocBlock (doc : Passage) : String :=
  "\n                タイトル: " ++ doc.title ++
  "\n                種類: " ++ doc.document_type ++
  "\n                部署: " ++ doc.department ++
  "\n                内容: " ++ doc.content ++
  "\n                ---\n                "

/-- Context assembly (lines 768-777): start from the header and append one
block per retrieved document, in result order. -/
def mvpContext (relevant_docs : List Passage) : String :=
  relevant_docs.foldl (fun acc doc => acc ++ mvpDocBlock doc) "参考文書:\n"

/-- Result of one submitted question: the updated rag_messages history and
the error banner shown by the except branch, if any. -/
structure TurnResult where
  messages : List Message
  errorShown : Option String
deriving DecidableEq, Repr

/-- One pass of the chat-input handler (lines 687-815).  The user message
is appended first (line 689); the try block then runs search and COMPLETE,
whose outcomes are passed in explicitly.  On success the assistant message
with its relevant_docs is appended (lines 806-810); on any exception only
an error banner is produced (lines 813-815) and the history is untouched. -/
def ragTurn (history : List Message) (prompt : String)
    (searchOutcome : Except String (List Passage))
    (completeOutcome : Except String String) : TurnResult :=
  let h := history ++ [⟨"user", prompt, none⟩]
  match searchOutcome with
  | Except.error e => ⟨h, some ("応答の生成中にエラーが発生しました: " ++ e)⟩
  | Except.ok relevant_docs =>
    match completeOutcome with
    | Except.error e => ⟨h, some ("応答の生成中にエラーが発生しました: " ++ e)⟩
    | Except.ok response =>
      ⟨h ++ [⟨"assistant", response, some relevant_docs⟩], none⟩

/-- The clear button handler (lines 667-670): the history is reset to []. -/
def clearHistory (_ : List Message) : List Message := []

end ChatbotMvp

namespace RagPage

/- Embeds src/handson/mvp/pages/_4_RAGチャットボット.py: the functions
search_documents_with_cortex, generate_rag_response, and the
"RAG回答生成" button handler. -/

/-- Left-to-right scan-and-replace of the two-character pattern a,b by
repl, matching Python str.replace for a two-character pattern: the
leftmost occurrence is replaced and scanning resumes after the
replacement text, which is never rescanned. -/
def replace2 (a b : Char) (repl : List Char) : List Char → List Char
  | [] => []
  | [x] => [x]
  | x :: y :: rest =>
    if x = a ∧ y = b then repl ++ replace2 a b repl rest
    else x :: replace2 a b repl (y :: rest)

/-- Step 1 of the response post-processing (lines 185-187): drop one
leading and one trailing double quote only when both are present. -/
def stripWrappingQuotes (s : List Char) : List Char :=
  if s.head? = some '\"' ∧ s.getLast? = some '\"' then (s.drop 1).dropLast else s

/-- The escape-sequence post-processing of generate_rag_response
(lines 185-194), in source order: strip wrapping quotes, then unescape
backslash-n, backslash-t, backslash-quote, backslash-apostrophe, and
finally doubled backslashes. -/
def postProcess (response : List Char) : List Char :=
  let r := stripWrappingQuotes response
  let r := replace2 '\\' 'n' ['\n'] r
  let r := replace2 '\\' 't' ['\t'] r
  let r := replace2 '\\' '\"' ['\"'] r
  let r := replace2 '\\' (Char.ofNat 39) [Char.ofNat 39] r
  let r := replace2 '\\' '\\' ['\\'] r
  r

/-- String form of the post-processing. -/
def postProcessStr (s : String) : String := String.mk (postProcess s.data)

/-- generate_rag_response (lines 142-207) given the outcome of the
external COMPLETE call: a raised exception becomes the visible error
string carrying str(e); a null/empty RESPONSE field becomes the fixed
apology; otherwise the raw response is post-processed. -/
def generate_rag_response (completeOutcome : Except String (Option String)) : String :=
  match completeOutcome with
  | Except.error e => "エラーが発生しました: " ++ e
  | Except.ok none => "申し訳ございませんが、回答を生成できませんでした。"
  | Except.ok (some response) => postProcessStr response

/-- search_documents_with_cortex (lines 80-136): on success the service
results are returned as given; a raised exception only shows an error
banner and the function returns the empty list. -/
def search_documents_with_cortex (outcome : Except String (List Passage)) :
    List Passage :=
  match outcome with
  | Except.ok results => results
  | Except.error _ => []

/-- The rendering of one search result inside the context block
(line: context_documents.append of the f-string). -/
def renderDoc (r : Passage) : String :=
  "ドキュメント: " ++ r.title ++ "\n内容: " ++ r.content

/-- The loop over search_results that appends, in result order, one
rendered block to context_documents and one title to source_titles. -/
def collectContext (search_results : List Passage) : List String × List String :=
  search_results.foldl
    (fun acc r => (acc.1 ++ [renderDoc r], acc.2 ++ [r.title])) ([], [])

/-- The fixed no-context sentinel used when no documents were found. -/
def noDocsSentinel : String := "関連する企業ドキュメントが見つかりませんでした。"

/-- Context assembly: join the rendered documents with blank lines, or the
sentinel when the list is empty. -/
def assembleContext (context_documents : List String) : String :=
  if context_documents = [] then noDocsSentinel
  else String.intercalate "\n\n" context_documents

/-- A chat-history entry of st.session_state.rag_chat_history; assistant
entries carry the sources key (the list of source titles). -/
structure Message where
  role : String
  content : String
  sources : Option (List String)
deriving DecidableEq, Repr

/-- The history and the assembled context block of one turn. -/
structure PageTurnResult where
  messages : List Message
  context : String
deriving DecidableEq, Repr

/-- The "RAG回答生成" button handler: append the user question, search the
documents, fold the results into context_documents and source_titles,
generate the response from the COMPLETE outcome, and append the assistant
message carrying source_titles as its sources — on success and on
generation failure alike. -/
def ragTurn (history : List Message) (user_question : String)
    (searchOutcome : Except String (List Passage))
    (completeOutcome : Except String (Option String)) : PageTurnResult :=
  let h := history ++ [⟨"user", user_question, none⟩]
  let search_results := search_documents_with_cortex searchOutcome
  let pair := collectContext search_results
  let context := assembleContext pair.1
  let rag_response := generate_rag_response completeOutcome
  ⟨h ++ [⟨"assistant", rag_response, some pair.2⟩], context⟩

end RagPage

namespace AnalysisShort

/- Embeds src/handson2/sis_snowretail_analysis_short.py,
render_rag_chatbot_page (lines 397-487). -/

/-- A rag_messages entry; assistant entries carry relevant_docs. -/
structure Message where
  role : String
  content : String
  relevant_docs : Option (List Passage)
deriving DecidableEq, Repr

/-- One turn's outcome: the updated history, the query string actually
sent to the search service (none when the search call was never reached),
and the error banner of the except branch, if any. -/
structure TurnResult where
  messages : List Message
  searchQuery : Option String
  errorShown : Option String
deriving DecidableEq, Repr

/-- One pass of the chat-input handler (lines 397-487).  Inside the try
block the keyword-translation COMPLETE call runs first (line 413); its
result is used verbatim as the search query (line 424).  If it raises,
control jumps to the except branch (lines 485-487) before any search is
issued, an error banner is shown, and the history keeps only the user
message.  There is no fallback to the original question text. -/
def ragTurn (history : List Message) (prompt : String)
    (keywordsOutcome : Except String String)
    (searchOutcome : Except String (List Passage))
    (completeOutcome : Except String String) : TurnResult :=
  let h := history ++ [⟨"user", prompt, none⟩]
  match keywordsOutcome with
  | Except.error e => ⟨h, none, some ("応答の生成中にエラーが発生しました: " ++ e)⟩
  | Except.ok keywords =>
    match searchOutcome with
    | Except.error e =>
      ⟨h, some keywords, some ("応答の生成中にエラーが発生しました: " ++ e)⟩
    | Except.ok relevant_docs =>
      match completeOutcome with
      | Except.error e =>
        ⟨h, some keywords, some ("応答の生成中にエラーが発生しました: " ++ e)⟩
      | Except.ok response =>
        ⟨h ++ [⟨"assistant", response, some relevant_docs⟩], some keywords, none⟩

end AnalysisShort

/- Helper lemmas. -/

theorem collect_foldl (rs : List Passage) (a b : List String) :
    rs.foldl (fun acc r => (acc.1 ++ [RagPage.renderDoc r], acc.2 ++ [r.title])) (a, b)
      = (a ++ rs.map RagPage.renderDoc, b ++ rs.map Passage.title) := by
  induction rs generalizing a b with
  | nil => simp
  | cons r rs ih => simp [ih]

theorem collectContext_eq (rs : List Passage) :
    RagPage.collectContext rs = (rs.map RagPage.renderDoc, rs.map Passage.title) := by
  simpa [RagPage.collectContext] using collect_foldl rs [] []

/-- C1: the filter compilation implements the four-case grammar exactly —
zero attributes produce no filter at all; one attribute with one value
produces a bare @eq node; one attribute with several values produces an
@or of @eq nodes; two attributes produce an @and of the two per-attribute
expressions, department first. -/
theorem c1_filter_grammar :
    ((ChatbotMvp.buildSearchArgs "q" [] []).filter = none)
    ∧ (∀ p d, (ChatbotMvp.buildSearchArgs p [d] []).filter
        = some (ChatbotMvp.FilterExpr.eq "department" d))
    ∧ (∀ p t, (ChatbotMvp.buildSearchArgs p [] [t]).filter
        = some (ChatbotMvp.FilterExpr.eq "document_type" t))
    ∧ (∀ p d1 d2 ds, (ChatbotMvp.buildSearchArgs p (d1 :: d2 :: ds) []).filter
        = some (ChatbotMvp.FilterExpr.or
            ((d1 :: d2 :: ds).map (fun v => ChatbotMvp.FilterExpr.eq "department" v))))
    ∧ (∀ p t1 t2 ts, (ChatbotMvp.buildSearchArgs p [] (t1 :: t2 :: ts)).filter
        = some (ChatbotMvp.FilterExpr.or
            ((t1 :: t2 :: ts).map (fun v => ChatbotMvp.FilterExpr.eq "document_type" v))))
    ∧ (∀ p d t ds ts, ∃ e1 e2,
        ChatbotMvp.attrCondition "department" (d :: ds) = some e1
        ∧ ChatbotMvp.attrCondition "document_type" (t :: ts) = some e2
        ∧ (ChatbotMvp.buildSearchArgs p (d :: ds) (t :: ts)).filter
            = some (ChatbotMvp.FilterExpr.and [e1, e2])) := by
  refine ⟨rfl, fun p d => rfl, fun p t => rfl, fun p d1 d2 ds => rfl,
    fun p t1 t2 ts => rfl, fun p d t ds ts => ?_⟩
  cases ds <;> cases ts <;> exact ⟨_, _, rfl, rfl, rfl⟩

/-- C2: the post-processing strips one wrapping quote pair only when both
quotes are present, then unescapes backslash-n and backslash-t, then
escaped quotes, and doubled backslashes last; on the raw input
He said \"hi\"\nBye\\ it yields He said "hi", a newline, then Bye\. -/
theorem c2_postprocess_escapes :
    RagPage.postProcessStr "He said \\\"hi\\\"\\nBye\\\\" = "He said \"hi\"\nBye\\"
    ∧ RagPage.postProcessStr "\"hello\"" = "hello"
    ∧ RagPage.postProcessStr "\"hello" = "\"hello"
    ∧ RagPage.postProcessStr "hello\"" = "hello\"" :=
  ⟨rfl, rfl, rfl, rfl⟩

/-- C3 counterexample: in the chatbot_mvp assembler the empty-sequence
output is the generic header 参考文書:\n — not a string meaning no
relevant documents were found: it differs from the no-documents sentinel
of the sibling page, and it is exactly the header with which every
non-empty context begins (shown at a concrete one-passage input), so
downstream it is not distinguishable as an empty-results marker. -/
theorem c3_header_not_sentinel_counterexample :
    ChatbotMvp.mvpContext [] = "参考文書:\n"
    ∧ ChatbotMvp.mvpContext [] ≠ RagPage.noDocsSentinel
    ∧ ChatbotMvp.mvpContext [⟨"返品規定", "三十日以内に返品可能", "社内FAQ", "カスタマーサービス部"⟩]
        = "参考文書:\n"
          ++ ChatbotMvp.mvpDocBlock ⟨"返品規定", "三十日以内に返品可能", "社内FAQ", "カスタマーサービス部"⟩ := by
  refine ⟨rfl, by decide, rfl⟩

/-- C3 amended: assembling context from the empty passage sequence yields
a fixed non-empty string, byte-for-byte identical on every call since the
assembler is a pure function of the passage list; in the chatbot_mvp
assembler that string is the generic header 参考文書:\n (the same header
that begins every non-empty context), while only the sibling page's
assembler yields a dedicated no-relevant-documents sentinel. -/
theorem c3_empty_context_sentinel :
    RagPage.assembleContext (RagPage.collectContext []).1 = RagPage.noDocsSentinel
    ∧ RagPage.noDocsSentinel ≠ ""
    ∧ ChatbotMvp.mvpContext [] = "参考文書:\n"
    ∧ ChatbotMvp.mvpContext [] ≠ "" := by
  refine ⟨rfl, by decide, rfl, by decide⟩

/-- C4: the context block lists the rendered passages in exactly the input
order, the number of passages folded in never exceeds the configured
result limit (given the service honors the requested limit), and the
source-title list has the same cardinality and order as those passages. -/
theorem c4_context_order_and_bounds (rs : List Passage) (limit : Nat)
    (h : rs.length ≤ limit) :
    (RagPage.collectContext rs).1 = rs.map RagPage.renderDoc
    ∧ (RagPage.collectContext rs).2 = rs.map Passage.title
    ∧ (RagPage.collectContext rs).1.length ≤ limit
    ∧ (RagPage.collectContext rs).2.length = (RagPage.collectContext rs).1.length := by
  simp [collectContext_eq]
  exact h

/-- C4 witness: the property instantiated at one concrete passage with
limit 3. -/
theorem c4_context_order_and_bounds_witness :
    ([(⟨"t", "c", "faq", "cs"⟩ : Passage)].length ≤ 3)
    ∧ ((RagPage.collectContext [⟨"t", "c", "faq", "cs"⟩]).1
        = [(⟨"t", "c", "faq", "cs"⟩ : Passage)].map RagPage.renderDoc
      ∧ (RagPage.collectContext [⟨"t", "c", "faq", "cs"⟩]).2
        = [(⟨"t", "c", "faq", "cs"⟩ : Passage)].map Passage.title
      ∧ (RagPage.collectContext [⟨"t", "c", "faq", "cs"⟩]).1.length ≤ 3
      ∧ (RagPage.collectContext [⟨"t", "c", "faq", "cs"⟩]).2.length
        = (RagPage.collectContext [⟨"t", "c", "faq", "cs"⟩]).1.length) :=
  ⟨by decide, c4_context_order_and_bounds [⟨"t", "c", "faq", "cs"⟩] 3 (by decide)⟩

/-- C5 counterexample: with one successfully retrieved passage and a
failing generation call, the appended assistant turn carries the
retrieved source title — its sources are neither absent nor empty. -/
theorem c5_sources_attached_counterexample :
    (RagPage.ragTurn [] "返品について"
        (Except.ok [⟨"返品規定", "三十日以内に返品可能", "社内FAQ", "カスタマーサービス部"⟩])
        (Except.error "boom")).messages.getLast?
      = some ⟨"assistant", "エラーが発生しました: boom", some ["返品規定"]⟩
    ∧ (some ["返品規定"] : Option (List String)) ≠ none
    ∧ (some ["返品規定"] : Option (List String)) ≠ some [] := by
  refine ⟨rfl, by decide, by decide⟩

/-- C5 amended: if the generation call fails after the user turn was
appended, the pipeline still appends an assistant turn whose content is
the visible error string carrying the error detail, and the turn
completes (history ends with the assistant turn); however that turn
carries the sources produced by the retrieval step rather than an absent
or empty sources list. -/
theorem c5_generation_failure_amended (history : List RagPage.Message)
    (q e : String) (docs : List Passage) :
    (RagPage.ragTurn history q (Except.ok docs) (Except.error e)).messages
      = history ++ [⟨"user", q, none⟩,
          ⟨"assistant", "エラーが発生しました: " ++ e, some (docs.map Passage.title)⟩] := by
  simp [RagPage.ragTurn, RagPage.generate_rag_response,
    RagPage.search_documents_with_cortex, collectContext_eq]

/-- C6 counterexample: when the keyword-extraction call fails, the search
query is never issued (no fallback to the original question); when it
returns the empty string, the empty string itself — not the original
question — is used as the query. -/
theorem c6_no_fallback_counterexample :
    (AnalysisShort.ragTurn [] "返品ポリシーを教えて" (Except.error "model timeout")
        (Except.ok []) (Except.ok "answer")).searchQuery = none
    ∧ (AnalysisShort.ragTurn [] "返品ポリシーを教えて" (Except.ok "")
        (Except.ok []) (Except.ok "answer")).searchQuery = some ""
    ∧ (some "" : Option String) ≠ some "返品ポリシーを教えて" := by
  refine ⟨rfl, rfl, by decide⟩

/-- C6 amended: if the keyword-extraction call fails, the turn aborts with
an error banner and the retrieval step never runs — the history keeps only
the user turn; whatever string the call returns (even the empty string) is
used verbatim as the retrieval query, and the original question is never
substituted. -/
theorem c6_normalizer_failure_amended (h : List AnalysisShort.Message)
    (prompt e : String) (so : Except String (List Passage))
    (co : Except String String) :
    (AnalysisShort.ragTurn h prompt (Except.error e) so co).searchQuery = none
    ∧ (AnalysisShort.ragTurn h prompt (Except.error e) so co).messages
        = h ++ [⟨"user", prompt, none⟩]
    ∧ (AnalysisShort.ragTurn h prompt (Except.error e) so co).errorShown
        = some ("応答の生成中にエラーが発生しました: " ++ e)
    ∧ ∀ kw, (AnalysisShort.ragTurn h prompt (Except.ok kw) so co).searchQuery = some kw := by
  refine ⟨rfl, rfl, rfl, ?_⟩
  intro kw
  cases so with
  | error e2 => rfl
  | ok docs => cases co <;> rfl

/-- C7 counterexample: with a failing search call the history gains only
the user message — no assistant turn is appended — even though the error
banner carrying the detail is shown. -/
theorem c7_no_error_turn_counterexample :
    (ChatbotMvp.ragTurn [] "返品条件は" (Except.error "service unavailable")
        (Except.ok "unused")).messages = [⟨"user", "返品条件は", none⟩]
    ∧ ("user" : String) ≠ "assistant"
    ∧ (ChatbotMvp.ragTurn [] "返品条件は" (Except.error "service unavailable")
        (Except.ok "unused")).errorShown
      = some "応答の生成中にエラーが発生しました: service unavailable" := by
  refine ⟨rfl, by decide, rfl⟩

/-- C7 amended: a retrieval failure is surfaced as a visible error banner
carrying the error detail and no passages are fabricated or substituted,
but the turn is not completed by an assistant turn — the history gains
only the user message. -/
theorem c7_retrieval_failure_amended (history : List ChatbotMvp.Message)
    (prompt e : String) (co : Except String String) :
    (ChatbotMvp.ragTurn history prompt (Except.error e) co).messages
      = history ++ [⟨"user", prompt, none⟩]
    ∧ (ChatbotMvp.ragTurn history prompt (Except.error e) co).errorShown
      = some ("応答の生成中にエラーが発生しました: " ++ e) :=
  ⟨rfl, rfl⟩

/-- C8: two successfully completed questions starting from the empty
session yield the history [user1, assistant1, user2, assistant2] in strict
submission order, and the clear action empties any history entirely. -/
theorem c8_turn_ordering_and_clear (q1 q2 r1 r2 : String) (d1 d2 : List Passage) :
    (ChatbotMvp.ragTurn (ChatbotMvp.ragTurn [] q1 (Except.ok d1) (Except.ok r1)).messages
        q2 (Except.ok d2) (Except.ok r2)).messages
      = [⟨"user", q1, none⟩, ⟨"assistant", r1, some d1⟩,
         ⟨"user", q2, none⟩, ⟨"assistant", r2, some d2⟩]
    ∧ (∀ h : List ChatbotMvp.Message, ChatbotMvp.clearHistory h = []) := by
  refine ⟨?_, fun h => rfl⟩
  simp [ChatbotMvp.ragTurn]
